import Mathlib

/-!
Verification of the triage / alert-recording core of `User_GUi/lifeline.py`.

The Python source is shallowly embedded: pure string logic becomes Lean
string functions, the SQLite database becomes an explicit `DB` state record,
each Flask POST handler becomes a state-passing function, and the outcome of
the external OpenAI call is an explicit `Except Unit String` parameter
(`Except.ok content` = the request succeeded and returned `content`,
`Except.error ()` = any exception was raised inside the `try` block).
-/

/-! ### Python string primitives -/

/-- `matchesAt pat l` is true when `pat` occurs at the head of `l`
(character-by-character match). -/
def matchesAt : List Char → List Char → Bool
  | [], _ => true
  | _ :: _, [] => false
  | a :: as, b :: bs => a == b && matchesAt as bs

/-- `containsSeq pat l` is true when `pat` occurs contiguously anywhere in `l`. -/
def containsSeq (pat : List Char) : List Char → Bool
  | [] => pat.isEmpty
  | b :: bs => matchesAt pat (b :: bs) || containsSeq pat bs

/-- Model of the Python expression `pat in s` on strings: substring test. -/
def pyIn (pat s : String) : Bool :=
  containsSeq pat.toList s.toList

/-- Model of Python `s.lower()`. -/
def pyLower (s : String) : String :=
  String.mk (s.toList.map Char.toLower)

/-- Drop leading whitespace characters of a character list. -/
def dropWs : List Char → List Char
  | [] => []
  | c :: cs => if c.isWhitespace then dropWs cs else c :: cs

/-- Model of Python `s.strip()`: remove leading and trailing whitespace. -/
def pyStrip (s : String) : String :=
  String.mk ((dropWs (dropWs s.toList.reverse).reverse))

/-- `endsWithStr s suf` is true when `suf` is a suffix of `s`. -/
def endsWithStr (s suf : String) : Bool :=
  matchesAt suf.toList.reverse s.toList.reverse

/-! ### Triage levels and the rule-based fallback (lifeline.py lines 80-86) -/

/-- The three triage levels recognised by the system. -/
inductive TriageLevel
  | Critical
  | Urgent
  | NonUrgent
  deriving DecidableEq, Repr

/-- The level name exactly as the Python source spells it. -/
def TriageLevel.name : TriageLevel → String
  | .Critical => "Critical"
  | .Urgent => "Urgent"
  | .NonUrgent => "Non-Urgent"

/-- The rule-based fallback classifier of `ai_triage` (the `except` branch,
lines 81-86): lowercase the symptoms, then first matching keyword rule wins. -/
def ruleBasedClassify (symptoms : String) : TriageLevel :=
  let text := pyLower symptoms
  if pyIn "bleeding" text || pyIn "unconscious" text || pyIn "heart" text then
    TriageLevel.Critical
  else if pyIn "pain" text || pyIn "fever" text then
    TriageLevel.Urgent
  else
    TriageLevel.NonUrgent

/-- The string the `except` branch of `ai_triage` returns: the rule-based
level name followed by the literal `" (fallback)"` tag. -/
def fallbackString (symptoms : String) : String :=
  (ruleBasedClassify symptoms).name ++ " (fallback)"

/-- Model of `ai_triage(symptoms)` (lines 56-86). The whole `try` block —
network call, response extraction — is summarised by `aiResponse`; on success
the source returns `response.choices[0].message.content.strip()` and on any
exception it runs the rule-based fallback. -/
def ai_triage (aiResponse : Except Unit String) (symptoms : String) : String :=
  match aiResponse with
  | Except.ok content => pyStrip content
  | Except.error _ => fallbackString symptoms

/-- A response string is a valid level when it is exactly one of the three
recognised level names. -/
def isValidLevel (s : String) : Bool :=
  s == "Critical" || s == "Urgent" || s == "Non-Urgent"

/-- Provenance of an `ai_triage` result as the source encodes it: fallback
results carry the `" (fallback)"` suffix, AI results are the bare level text. -/
def provenance (result : String) : String :=
  if endsWithStr result " (fallback)" then "fallback" else "ai"

/-! ### Database model (lifeline.py `init_db`, lines 21-52)

The SQLite file holds an `alerts` table (append-only, `INTEGER PRIMARY KEY
AUTOINCREMENT` key starting at 1) and a `profile` table. `DB` carries both
tables plus the next id that AUTOINCREMENT will assign. -/

/-- One row of the `alerts` table. -/
structure AlertRow where
  id : Nat
  created_at : String
  lat : ℚ
  lng : ℚ
  triage_level : String
  notes : String
  deriving DecidableEq, Repr

/-- One row of the `profile` table. Field values come from
`request.form.get(...)`, which yields `none` when the field is absent. -/
structure ProfileRow where
  id : Nat
  full_name : Option String
  age : Option String
  blood_group : Option String
  language : Option String
  allergies : Option String
  conditions : Option String
  emergency_contact_name : Option String
  emergency_contact_phone : Option String
  deriving DecidableEq, Repr

/-- The fields a profile POST submits (each `request.form.get` result). -/
structure ProfileForm where
  full_name : Option String
  age : Option String
  blood_group : Option String
  language : Option String
  allergies : Option String
  conditions : Option String
  emergency_contact_name : Option String
  emergency_contact_phone : Option String
  deriving DecidableEq, Repr

/-- Database state: alerts in insertion order, the id AUTOINCREMENT assigns
next, and the profile table rows. -/
structure DB where
  nextAlertId : Nat
  alerts : List AlertRow
  profile : List ProfileRow
  deriving DecidableEq, Repr

/-- Model of `init_db()`: both tables empty; SQLite AUTOINCREMENT starts at 1. -/
def init_db : DB :=
  { nextAlertId := 1, alerts := [], profile := [] }

/-- Model of `INSERT INTO alerts (created_at, lat, lng, triage_level, notes)`:
AUTOINCREMENT assigns the next id and the row joins the end of the table. -/
def insertAlert (db : DB) (created_at : String) (lat lng : ℚ)
    (triage notes : String) : DB :=
  { db with
      nextAlertId := db.nextAlertId + 1,
      alerts := db.alerts ++
        [{ id := db.nextAlertId, created_at := created_at, lat := lat,
           lng := lng, triage_level := triage, notes := notes }] }

/-- Insert a row into a list kept sorted by descending id. -/
def insertDesc (r : AlertRow) : List AlertRow → List AlertRow
  | [] => [r]
  | x :: xs => if x.id ≤ r.id then r :: x :: xs else x :: insertDesc r xs

/-- Sort alert rows by descending id (insertion sort). -/
def sortByIdDesc : List AlertRow → List AlertRow
  | [] => []
  | x :: xs => insertDesc x (sortByIdDesc xs)

/-- Model of the dashboard read (lines 210-215):
`SELECT id, created_at, lat, lng, triage_level, notes FROM alerts ORDER BY id DESC`. -/
def dashboard_alerts (db : DB) : List AlertRow :=
  sortByIdDesc db.alerts

/-- Store invariant: every stored id is below the AUTOINCREMENT counter and
ids are strictly increasing along insertion order. -/
def StoreInv (db : DB) : Prop :=
  (∀ r ∈ db.alerts, r.id < db.nextAlertId) ∧
    List.Pairwise (fun a b => a.id < b.id) db.alerts

/-! ### Route handlers (POST branches) -/

/-- Model of the POST branch of `sos()` (lines 111-126): stubbed location
`28.61, 77.20`, stubbed triage `"Critical"`, one insert into `alerts`. -/
def sos_post (db : DB) (now : String) (notes : String) : DB :=
  insertAlert db now (28.61 : ℚ) (77.20 : ℚ) "Critical" notes

/-- Model of the POST branch of `triage()` (lines 135-145): when the
`symptoms` field is non-empty run `ai_triage`, otherwise the result stays
`None`; the handler never writes to the database. -/
def triage_post (db : DB) (aiResponse : Except Unit String)
    (symptoms _notes : String) : Option String × DB :=
  if symptoms = "" then (none, db)
  else (some (ai_triage aiResponse symptoms), db)

/-- Build the profile row the POST branch inserts:
`INSERT INTO profile (...) VALUES (1,?,?,?,?,?,?,?,?)`. -/
def mkProfileRow (form : ProfileForm) : ProfileRow :=
  { id := 1, full_name := form.full_name, age := form.age,
    blood_group := form.blood_group, language := form.language,
    allergies := form.allergies, conditions := form.conditions,
    emergency_contact_name := form.emergency_contact_name,
    emergency_contact_phone := form.emergency_contact_phone }

/-- Model of the POST branch of `profile()` (lines 151-173):
`DELETE FROM profile` then insert the single row with id 1; the `alerts`
table is never touched. -/
def profile_post (db : DB) (form : ProfileForm) : DB :=
  { db with profile := [mkProfileRow form] }

/-! ### Helper lemmas -/

theorem matchesAt_iff (pat : List Char) : ∀ l, matchesAt pat l = true ↔ pat <+: l := by
  induction pat with
  | nil =>
    intro l
    constructor
    · intro _; exact ⟨l, rfl⟩
    · intro _; rfl
  | cons a as ih =>
    intro l
    cases l with
    | nil =>
      constructor
      · intro h; simp [matchesAt] at h
      · rintro ⟨t, ht⟩; simp at ht
    | cons b bs =>
      rw [show matchesAt (a :: as) (b :: bs) = (a == b && matchesAt as bs) from rfl,
        Bool.and_eq_true, beq_iff_eq, ih bs]
      constructor
      · rintro ⟨rfl, t, rfl⟩; exact ⟨t, rfl⟩
      · rintro ⟨t, ht⟩
        rw [List.cons_append] at ht
        injection ht with h1 h2
        exact ⟨h1, t, h2⟩

theorem containsSeq_iff (pat : List Char) : ∀ l, containsSeq pat l = true ↔ pat <:+: l := by
  intro l
  induction l with
  | nil =>
    rw [show containsSeq pat [] = pat.isEmpty from rfl]
    constructor
    · intro h
      have hp : pat = [] := by
        cases pat with
        | nil => rfl
        | cons c cs => simp [List.isEmpty] at h
      subst hp
      exact ⟨[], [], rfl⟩
    · rintro ⟨s, t, h⟩
      have h2 : s ++ (pat ++ t) = [] := by simpa [List.append_assoc] using h
      rcases List.append_eq_nil.mp h2 with ⟨hs, hpt⟩
      rcases List.append_eq_nil.mp hpt with ⟨hpat, ht⟩
      simp [hpat]
  | cons b bs ih =>
    rw [show containsSeq pat (b :: bs) = (matchesAt pat (b :: bs) || containsSeq pat bs)
      from rfl, Bool.or_eq_true, matchesAt_iff, ih]
    constructor
    · rintro (⟨t, ht⟩ | ⟨s, t, h⟩)
      · exact ⟨[], t, ht⟩
      · exact ⟨b :: s, t, by rw [← h]; rfl⟩
    · rintro ⟨s, t, h⟩
      cases s with
      | nil => exact Or.inl ⟨t, by simpa using h⟩
      | cons c cs =>
        rw [List.cons_append, List.cons_append] at h
        injection h with h1 h2
        exact Or.inr ⟨cs, t, h2⟩

theorem pyIn_iff (pat s : String) : pyIn pat s = true ↔ pat.toList <:+: s.toList :=
  containsSeq_iff pat.toList s.toList

theorem insertDesc_append (r : AlertRow) :
    ∀ l : List AlertRow, (∀ x ∈ l, r.id < x.id) → insertDesc r l = l ++ [r] := by
  intro l
  induction l with
  | nil => intro _; rfl
  | cons x xs ih =>
    intro h
    have hx : r.id < x.id := h x (by simp)
    have hnot : ¬ x.id ≤ r.id := by omega
    rw [show insertDesc r (x :: xs) = if x.id ≤ r.id then r :: x :: xs
      else x :: insertDesc r xs from rfl, if_neg hnot,
      ih (fun y hy => h y (by simp [hy])), List.cons_append]

theorem sortByIdDesc_eq_reverse :
    ∀ l : List AlertRow, List.Pairwise (fun a b => a.id < b.id) l →
      sortByIdDesc l = l.reverse := by
  intro l
  induction l with
  | nil => intro _; rfl
  | cons x xs ih =>
    intro h
    rcases List.pairwise_cons.mp h with ⟨hx, hxs⟩
    rw [show sortByIdDesc (x :: xs) = insertDesc x (sortByIdDesc xs) from rfl,
      ih hxs, List.reverse_cons]
    exact insertDesc_append x xs.reverse (fun y hy => hx y (List.mem_reverse.mp hy))

theorem insertAlert_StoreInv (db : DB) (h : StoreInv db) (created_at : String)
    (lat lng : ℚ) (triage notes : String) :
    StoreInv (insertAlert db created_at lat lng triage notes) := by
  obtain ⟨hlt, hpw⟩ := h
  constructor
  · intro r hr
    rcases List.mem_append.mp hr with hr | hr
    · exact Nat.lt_succ_of_lt (hlt r hr)
    · rcases List.mem_singleton.mp hr with rfl
      exact Nat.lt_succ_self _
  · refine List.pairwise_append.mpr ⟨hpw, List.pairwise_singleton _ _, ?_⟩
    intro a ha b hb
    rcases List.mem_singleton.mp hb with rfl
    exact hlt a ha

/-! ### Claim theorems -/

/-- C1: for every symptoms string, when the AI classification attempt fails
(raises any error), `ai_triage` returns a result whose level equals the
rule-based classification of that symptoms string, tagged with provenance
`fallback`; the fallback itself never fails (it is a total function). -/
theorem claim_C1_fallback_level_provenance (symptoms : String) (e : Unit) :
    ai_triage (Except.error e) symptoms
        = (ruleBasedClassify symptoms).name ++ " (fallback)" ∧
      provenance (ai_triage (Except.error e) symptoms) = "fallback" := by
  refine ⟨rfl, ?_⟩
  show provenance ((ruleBasedClassify symptoms).name ++ " (fallback)") = "fallback"
  cases ruleBasedClassify symptoms <;> decide

/-- C2: the rule-based classifier, with containment stated as substring
(contiguous sublist) of the lowercased text: a Critical keyword anywhere
gives `Critical` regardless of other content; otherwise `pain`/`fever`
gives `Urgent`; otherwise `Non-Urgent`. -/
theorem claim_C2_rule_precedence (s : String) :
    (("bleeding".toList <:+: (pyLower s).toList ∨
        "unconscious".toList <:+: (pyLower s).toList ∨
        "heart".toList <:+: (pyLower s).toList) →
      ruleBasedClassify s = TriageLevel.Critical) ∧
    (¬ ("bleeding".toList <:+: (pyLower s).toList ∨
          "unconscious".toList <:+: (pyLower s).toList ∨
          "heart".toList <:+: (pyLower s).toList) →
      ("pain".toList <:+: (pyLower s).toList ∨
        "fever".toList <:+: (pyLower s).toList) →
      ruleBasedClassify s = TriageLevel.Urgent) ∧
    (¬ ("bleeding".toList <:+: (pyLower s).toList ∨
          "unconscious".toList <:+: (pyLower s).toList ∨
          "heart".toList <:+: (pyLower s).toList) →
      ¬ ("pain".toList <:+: (pyLower s).toList ∨
          "fever".toList <:+: (pyLower s).toList) →
      ruleBasedClassify s = TriageLevel.NonUrgent) := by
  have hdef : ruleBasedClassify s =
      (if pyIn "bleeding" (pyLower s) || pyIn "unconscious" (pyLower s) ||
          pyIn "heart" (pyLower s) then TriageLevel.Critical
        else if pyIn "pain" (pyLower s) || pyIn "fever" (pyLower s) then
          TriageLevel.Urgent
        else TriageLevel.NonUrgent) := rfl
  have hcrit : (pyIn "bleeding" (pyLower s) || pyIn "unconscious" (pyLower s) ||
      pyIn "heart" (pyLower s)) = true ↔
      ("bleeding".toList <:+: (pyLower s).toList ∨
        "unconscious".toList <:+: (pyLower s).toList ∨
        "heart".toList <:+: (pyLower s).toList) := by
    simp only [Bool.or_eq_true, pyIn_iff, or_assoc]
  have hurg : (pyIn "pain" (pyLower s) || pyIn "fever" (pyLower s)) = true ↔
      ("pain".toList <:+: (pyLower s).toList ∨
        "fever".toList <:+: (pyLower s).toList) := by
    simp only [Bool.or_eq_true, pyIn_iff]
  refine ⟨?_, ?_, ?_⟩
  · intro h
    rw [hdef, if_pos (hcrit.mpr h)]
  · intro h1 h2
    rw [hdef, if_neg (fun hc => h1 (hcrit.mp hc)), if_pos (hurg.mpr h2)]
  · intro h1 h2
    rw [hdef, if_neg (fun hc => h1 (hcrit.mp hc)), if_neg (fun hu => h2 (hurg.mp hu))]

theorem claim_C2_witness :
    ruleBasedClassify "Severe Bleeding" = TriageLevel.Critical ∧
    ruleBasedClassify "high Fever" = TriageLevel.Urgent ∧
    ruleBasedClassify "dizzy" = TriageLevel.NonUrgent := by
  refine ⟨?_, ?_, ?_⟩
  · exact (claim_C2_rule_precedence "Severe Bleeding").1
      (Or.inl ((pyIn_iff "bleeding" (pyLower "Severe Bleeding")).mp (by decide)))
  · refine (claim_C2_rule_precedence "high Fever").2.1 ?_ ?_
    · rintro (h | h | h) <;> exact absurd ((pyIn_iff _ _).mpr h) (by decide)
    · exact Or.inr ((pyIn_iff "fever" (pyLower "high Fever")).mp (by decide))
  · refine (claim_C2_rule_precedence "dizzy").2.2 ?_ ?_
    · rintro (h | h | h) <;> exact absurd ((pyIn_iff _ _).mpr h) (by decide)
    · rintro (h | h) <;> exact absurd ((pyIn_iff _ _).mpr h) (by decide)

/-- C3 counterexample: on a successful AI response whose text is not one of
the three recognised levels, `ai_triage` returns that text verbatim instead
of treating it as a failure, so the engine can return an unrecognised level
string (here `"Recovering"`, which also differs from the fallback result). -/
theorem claim_C3_counterexample :
    ai_triage (Except.ok "Recovering") "chest pain" = "Recovering" ∧
    isValidLevel "Recovering" = false ∧
    ai_triage (Except.ok "Recovering") "chest pain" ≠
      (ruleBasedClassify "chest pain").name ++ " (fallback)" := by
  decide

/-- C3 amended: on a successful response the client performs no validation
at all — it returns the stripped response text verbatim, whatever it is. -/
theorem claim_C3_amended_no_validation (content symptoms : String) :
    ai_triage (Except.ok content) symptoms = pyStrip content := rfl

/-- C4: `append` assigns the next AUTOINCREMENT id, strictly above every
stored id (so insertion order equals id order and the invariant is
preserved), and the dashboard read (`ORDER BY id DESC`) returns exactly the
appended records, most recent first (the reverse of insertion order). -/
theorem claim_C4_append_order (db : DB) (h : StoreInv db) (created_at : String)
    (lat lng : ℚ) (triage notes : String) :
    (insertAlert db created_at lat lng triage notes).alerts
        = db.alerts ++
          [{ id := db.nextAlertId, created_at := created_at, lat := lat,
             lng := lng, triage_level := triage, notes := notes }] ∧
    (∀ r ∈ db.alerts, r.id < db.nextAlertId) ∧
    StoreInv (insertAlert db created_at lat lng triage notes) ∧
    dashboard_alerts (insertAlert db created_at lat lng triage notes)
        = ((insertAlert db created_at lat lng triage notes).alerts).reverse := by
  refine ⟨rfl, h.1, insertAlert_StoreInv db h created_at lat lng triage notes, ?_⟩
  exact sortByIdDesc_eq_reverse _
    (insertAlert_StoreInv db h created_at lat lng triage notes).2

theorem claim_C4_witness :
    (insertAlert init_db "t0" 0 0 "Critical" "note").alerts
        = init_db.alerts ++
          [{ id := init_db.nextAlertId, created_at := "t0", lat := 0,
             lng := 0, triage_level := "Critical", notes := "note" }] ∧
    (∀ r ∈ init_db.alerts, r.id < init_db.nextAlertId) ∧
    StoreInv (insertAlert init_db "t0" 0 0 "Critical" "note") ∧
    dashboard_alerts (insertAlert init_db "t0" 0 0 "Critical" "note")
        = ((insertAlert init_db "t0" 0 0 "Critical" "note").alerts).reverse :=
  claim_C4_append_order init_db ⟨by simp [init_db], by simp [init_db]⟩
    "t0" 0 0 "Critical" "note"

/-- C5: when the AI call succeeds with a valid level string, `ai_triage`
returns exactly that level, with provenance `ai` (no fallback tag), whatever
the symptoms are — in particular even when the rule-based classifier would
disagree. -/
theorem claim_C5_ai_level_wins (s symptoms : String) (h : isValidLevel s = true) :
    ai_triage (Except.ok s) symptoms = s ∧
      provenance (ai_triage (Except.ok s) symptoms) = "ai" := by
  have hs : s = "Critical" ∨ s = "Urgent" ∨ s = "Non-Urgent" := by
    simpa only [isValidLevel, Bool.or_eq_true, beq_iff_eq, or_assoc] using h
  rcases hs with rfl | rfl | rfl <;> exact ⟨rfl, rfl⟩

theorem claim_C5_witness :
    isValidLevel "Non-Urgent" = true ∧
    (ai_triage (Except.ok "Non-Urgent") "bleeding" = "Non-Urgent" ∧
      provenance (ai_triage (Except.ok "Non-Urgent") "bleeding") = "ai") ∧
    ruleBasedClassify "bleeding" = TriageLevel.Critical :=
  ⟨by decide, claim_C5_ai_level_wins "Non-Urgent" "bleeding" (by decide), by decide⟩

/-- C6: every accepted SOS POST performs exactly one append to the alert
log, and the appended record's triage level is the stubbed `"Critical"`,
unconditionally — `sos_post` takes no classifier input at all, so the
Decision Engine (`ai_triage`) is never consulted. -/
theorem claim_C6_sos_single_critical_append (db : DB) (now notes : String) :
    (sos_post db now notes).alerts
        = db.alerts ++
          [{ id := db.nextAlertId, created_at := now, lat := 28.61,
             lng := 77.20, triage_level := "Critical", notes := notes }] ∧
    (sos_post db now notes).alerts.length = db.alerts.length + 1 := by
  refine ⟨rfl, ?_⟩
  simp [sos_post, insertAlert]

/-- C7: a triage POST with empty symptoms is a no-op: the result is `none`
(no classification, AI or rule-based, is attempted) and the database is
returned unchanged (nothing is persisted). -/
theorem claim_C7_empty_symptoms_noop (db : DB) (aiResponse : Except Unit String)
    (symptoms notes : String) (h : symptoms = "") :
    triage_post db aiResponse symptoms notes = (none, db) := by
  subst h
  rfl

theorem claim_C7_witness :
    triage_post init_db (Except.error ()) "" "some note" = (none, init_db) :=
  claim_C7_empty_symptoms_noop init_db (Except.error ()) "" "some note" rfl

/-- C9: on any exception from the AI call path, `ai_triage` still returns
one of the three tagged fallback strings, for every input including the
empty string, which yields `"Non-Urgent (fallback)"`. -/
theorem claim_C9_total_fallback (symptoms : String) (e : Unit) :
    (ai_triage (Except.error e) symptoms = "Critical (fallback)" ∨
      ai_triage (Except.error e) symptoms = "Urgent (fallback)" ∨
      ai_triage (Except.error e) symptoms = "Non-Urgent (fallback)") ∧
    ai_triage (Except.error e) "" = "Non-Urgent (fallback)" := by
  constructor
  · have hfb : ai_triage (Except.error e) symptoms
        = (ruleBasedClassify symptoms).name ++ " (fallback)" := rfl
    rw [hfb]
    cases ruleBasedClassify symptoms with
    | Critical => exact Or.inl rfl
    | Urgent => exact Or.inr (Or.inl rfl)
    | NonUrgent => exact Or.inr (Or.inr rfl)
  · rfl

/-- C10: saving a profile leaves the alert log (and its AUTOINCREMENT
counter) unchanged; only the profile table is rewritten, to the single row
with id 1 built from the submitted form. -/
theorem claim_C10_profile_frame (db : DB) (form : ProfileForm) :
    (profile_post db form).alerts = db.alerts ∧
    (profile_post db form).nextAlertId = db.nextAlertId ∧
    (profile_post db form).profile = [mkProfileRow form] ∧
    (mkProfileRow form).id = 1 :=
  ⟨rfl, rfl, rfl, rfl⟩
